import Mathlib

/-!
Shallow embedding of the spec-to-request translation subsystem of the
azure-aci virtual-kubelet provider (`pkg/provider/aci.go`), together with
theorems settling the frozen claims about it.

Conventions of the embedding:
* Go `nil`-able slices and maps become `Option` when the code distinguishes
  `nil` from empty (e.g. `Resources.Limits != nil`), plain lists otherwise.
* Machine integers (`int64` milli-CPU values, byte counts) are modelled as
  `Nat`: Kubernetes resource quantities are non-negative, and Go integer
  division on non-negative operands coincides with `Nat` division.
* Go `float64` resource values are modelled as `ℚ`; the divisions the code
  performs are exact at the magnitudes involved.
* Functions returning `(T, error)` become `Except ProviderError T`; the
  `CreatePod` entry point returns the container group it would hand to the
  backend call, so `.error` means the backend call is never issued (every
  error path in the source returns before `CreateContainerGroup`).
-/

namespace AzureACI

/-- `strings.EqualFold`, restricted to the ASCII case folding the code
relies on: the two strings agree character-wise after lower-casing. -/
def eqFold (a b : String) : Bool :=
  a.data.map Char.toLower == b.data.map Char.toLower

/-- The service account secret mount path constant from `aci.go`. -/
def serviceAccountSecretMountPath : String := "/var/run/secrets/kubernetes.io/serviceaccount"

/-- The `virtualkubelet.io/dnsnamelabel` pod annotation key. -/
def dnsNameLabelAnnKey : String := "virtualkubelet.io/dnsnamelabel"

/-- The `virtual-kubelet.io/gpu-type` pod annotation key. -/
def gpuTypeAnnKey : String := "virtual-kubelet.io/gpu-type"

/-- Errors produced by the translation: `errdefs.InvalidInput` validation
errors versus plain (`fmt.Errorf` / `errors.New`) errors. -/
inductive ProviderError where
  | invalidInput (msg : String)
  | general (msg : String)
deriving DecidableEq, Repr

/-- Validation errors are exactly the `errdefs.InvalidInput` ones. -/
def ProviderError.isValidation : ProviderError → Bool
  | .invalidInput _ => true
  | .general _ => false

/-! ### The orchestrator-side (Kubernetes) data model -/

/-- A `v1.ContainerPort`. -/
structure ContainerPort where
  name : String
  containerPort : Nat
  protocol : String
deriving DecidableEq, Repr

/-- An `intstr.IntOrString` probe port. -/
inductive IntOrString where
  | intVal (n : Nat)
  | strVal (s : String)
deriving DecidableEq, Repr

/-- A `v1.HTTPGetAction`. -/
structure HTTPGetHandler where
  path : String
  port : IntOrString
  scheme : String
deriving DecidableEq, Repr

/-- A `v1.Probe`: at most one of the exec / http-get handlers is populated
in a well-formed spec, but the code must check. -/
structure Probe where
  execCommand : Option (List String)
  httpGet : Option HTTPGetHandler
  initialDelaySeconds : Int
  failureThreshold : Int
  successThreshold : Int
  timeoutSeconds : Int
  periodSeconds : Int
deriving DecidableEq, Repr

/-- One `v1.ResourceList` (a Go map); only the entries the translation reads
are modelled: CPU (in milliCPU), memory (in bytes) and `nvidia.com/gpu`.
An `Option.none` field is an absent map entry. -/
structure ResourceList where
  cpuMilli : Option Nat
  memoryBytes : Option Nat
  gpu : Option Nat
deriving DecidableEq, Repr

/-- `v1.ResourceRequirements`; `none` models a `nil` Go map (the code
distinguishes `nil` from present-but-empty via `!= nil` checks). -/
structure Resources where
  requests : Option ResourceList
  limits : Option ResourceList
deriving DecidableEq, Repr

/-- A `v1.VolumeMount`. -/
structure VolumeMount where
  name : String
  mountPath : String
  readOnly : Bool
deriving DecidableEq, Repr

/-- A `v1.EnvVar`; `fromSecret` models `ValueFrom != nil && ValueFrom.SecretKeyRef != nil`. -/
structure EnvVar where
  name : String
  value : String
  fromSecret : Bool
deriving DecidableEq, Repr

/-- A `v1.Container` (used both for containers and init containers);
`ports` is an `Option` because the init-container path checks `Ports != nil`. -/
structure Container where
  name : String
  image : String
  command : List String
  args : List String
  ports : Option (List ContainerPort)
  volumeMounts : List VolumeMount
  env : List EnvVar
  resources : Resources
  livenessProbe : Option Probe
  readinessProbe : Option Probe
deriving DecidableEq, Repr

/-- The parts of a `v1.Pod` the translation reads. -/
structure Pod where
  name : String
  ns : String
  clusterName : String
  uid : String
  creationTimestamp : String
  nodeName : String
  restartPolicy : String
  annots : List (String × String)
  containers : List Container
  initContainers : List Container
deriving DecidableEq, Repr

/-- Annotation lookup, `pod.Annotations[key]` with its `ok` flag. -/
def lookupAnnot (pod : Pod) (key : String) : Option String :=
  (pod.annots.find? (fun kv => kv.1 = key)).map (fun kv => kv.2)

/-- Annotation lookup with the Go zero-value default `""`. -/
def lookupAnnotD (pod : Pod) (key : String) : String :=
  (lookupAnnot pod key).getD ""

/-! ### The backend-side (ACI) data model -/

/-- `azaci.ContainerPort` / group-level `azaci.Port`. -/
structure AciPort where
  port : Nat
  protocol : String
deriving DecidableEq, Repr

/-- `azaci.VolumeMount`. -/
structure AciVolumeMount where
  name : String
  mountPath : String
  readOnly : Bool
deriving DecidableEq, Repr

/-- `azaci.EnvironmentVariable`: exactly one of `value` / `secureValue` is set. -/
structure AciEnvVar where
  name : String
  value : Option String
  secureValue : Option String
deriving DecidableEq, Repr

/-- `azaci.ContainerHTTPGet`. -/
structure AciHTTPGet where
  port : Nat
  path : String
  scheme : String
deriving DecidableEq, Repr

/-- `azaci.ContainerProbe`. -/
structure AciProbe where
  execCommand : Option (List String)
  httpGet : Option AciHTTPGet
  initialDelaySeconds : Int
  failureThreshold : Int
  successThreshold : Int
  timeoutSeconds : Int
  periodSeconds : Int
deriving DecidableEq, Repr

/-- `azaci.GpuResource`. -/
structure GpuResource where
  count : Nat
  sku : String
deriving DecidableEq, Repr

/-- `azaci.ResourceRequests`. -/
structure AciResourceRequests where
  cpu : ℚ
  memoryInGB : ℚ
  gpu : Option GpuResource
deriving DecidableEq, Repr

/-- `azaci.ResourceLimits`. -/
structure AciResourceLimits where
  cpu : ℚ
  memoryInGB : ℚ
  gpu : Option GpuResource
deriving DecidableEq, Repr

/-- `azaci.ResourceRequirements`; `limits = none` models the `Limits`
pointer staying `nil` when the pod declares no limits map. -/
structure AciResources where
  requests : AciResourceRequests
  limits : Option AciResourceLimits
deriving DecidableEq, Repr

/-- `azaci.Container` (name plus the `ContainerProperties` the code fills). -/
structure AciContainer where
  name : String
  image : String
  command : List String
  ports : List AciPort
  volumeMounts : List AciVolumeMount
  env : List AciEnvVar
  resources : AciResources
  livenessProbe : Option AciProbe
  readinessProbe : Option AciProbe
deriving DecidableEq, Repr

/-- `azaci.InitContainerDefinition`. -/
structure AciInitContainer where
  name : String
  image : String
  command : List String
  volumeMounts : List AciVolumeMount
  env : List AciEnvVar
deriving DecidableEq, Repr

/-- `azaci.ImageRegistryCredential`. -/
structure ImageRegistryCredential where
  server : String
  username : String
  password : String
deriving DecidableEq, Repr

/-- `azaci.Volume`; the translation only ever reads the volume name, the
remaining payload fields are carried opaquely and never inspected. -/
structure AciVolume where
  name : String
deriving DecidableEq, Repr

/-- `azaci.LogAnalytics` diagnostic sink configuration. -/
structure LogAnalytics where
  logType : String
  metadata : List (String × String)
deriving DecidableEq, Repr

/-- `azaci.ContainerGroupDiagnostics`. -/
structure Diagnostics where
  logAnalytics : Option LogAnalytics
deriving DecidableEq, Repr

/-- `azaci.IPAddress`. -/
structure IPAddress where
  ports : List AciPort
  ipType : String
  dnsNameLabel : Option String
deriving DecidableEq, Repr

/-- The `ContainerGroupWrapper` document `CreatePod` assembles and hands to
`CreateContainerGroup`. -/
structure ContainerGroup where
  location : String
  restartPolicy : String
  osType : String
  containers : List AciContainer
  initContainers : List AciInitContainer
  volumes : List AciVolume
  imageRegistryCredentials : List ImageRegistryCredential
  diagnostics : Option Diagnostics
  ipAddress : Option IPAddress
  tags : List (String × String)
  subnetIds : Option (List String)
deriving DecidableEq, Repr

/-- The `ACIProvider` fields the translation reads. -/
structure Provider where
  resourceGroup : String
  region : String
  nodeName : String
  operatingSystem : String
  subnetName : String
  gpuSKUs : List String
  diagnostics : Option Diagnostics
deriving DecidableEq, Repr

/-! ### Translation helpers (from `aci.go`) -/

/-- The `errdefs.InvalidInput` message for args without command. -/
def argsNoCommandMsg : String :=
  "ACI does not support providing args without specifying the command. Please supply both command and args to the pod spec."

/-- `verifyContainer`: reject a container declaring args without a command. -/
def verifyContainer (c : Container) : Except ProviderError Unit :=
  if c.command = [] ∧ c.args ≠ [] then .error (.invalidInput argsNoCommandMsg)
  else .ok ()

/-- `getCommand`: the ACI command line is command followed by args. -/
def getCommand (c : Container) : List String := c.command ++ c.args

/-- `getVolumeMounts`. -/
def getVolumeMounts (c : Container) : List AciVolumeMount :=
  c.volumeMounts.map (fun v => { name := v.name, mountPath := v.mountPath, readOnly := v.readOnly })

/-- `getACIEnvVar`: a variable backed by a secret key reference becomes a
secure value, any other variable a plain value. -/
def getACIEnvVar (e : EnvVar) : AciEnvVar :=
  if e.fromSecret then { name := e.name, value := none, secureValue := some e.value }
  else { name := e.name, value := some e.value, secureValue := none }

/-- `getEnvironmentVariables` (the same loop is inlined in `getContainers`):
variables with an empty value are skipped, the rest translate via `getACIEnvVar`. -/
def getEnvironmentVariables (c : Container) : List AciEnvVar :=
  (c.env.filter (fun e => e.value ≠ "")).map getACIEnvVar

/-- `getProtocol` (defined outside `aci.go`). Modelled from the spec: maps the
orchestrator port protocol onto the backend protocol name; the claims never
inspect its output. -/
def getProtocol (proto : String) : String :=
  if eqFold proto "UDP" then "UDP" else "TCP"

/-- Error messages of `getInitContainers`. -/
def initPortsMsg : String := "azure container instances initContainers do not support ports"

/-- See `initPortsMsg`. -/
def initRequestsMsg : String := "azure container instances initContainers do not support resources requests"

/-- See `initPortsMsg`. -/
def initLimitsMsg : String := "azure container instances initContainers do not support resources limits"

/-- See `initPortsMsg`. -/
def initLivenessMsg : String := "azure container instances initContainers do not support livenessProbe"

/-- See `initPortsMsg`. -/
def initReadinessMsg : String := "azure container instances initContainers do not support readinessProbe"

/-- The per-init-container body of the `getInitContainers` loop: verify the
command/args rule, reject disallowed fields, then build the definition. -/
def getInitContainer (c : Container) : Except ProviderError AciInitContainer :=
  match verifyContainer c with
  | .error e => .error e
  | .ok _ =>
    if c.ports.isSome then .error (.invalidInput initPortsMsg)
    else if c.resources.requests.isSome then .error (.invalidInput initRequestsMsg)
    else if c.resources.limits.isSome then .error (.invalidInput initLimitsMsg)
    else if c.livenessProbe.isSome then .error (.invalidInput initLivenessMsg)
    else if c.readinessProbe.isSome then .error (.invalidInput initReadinessMsg)
    else .ok { name := c.name, image := c.image, command := getCommand c,
               volumeMounts := getVolumeMounts c, env := getEnvironmentVariables c }

/-- Sequential translation of a list, aborting on the first error, as the Go
`for` loops over containers do. -/
def mapExcept (f : α → Except ProviderError β) : List α → Except ProviderError (List β)
  | [] => .ok []
  | x :: xs =>
    match f x with
    | .error e => .error e
    | .ok y =>
      match mapExcept f xs with
      | .error e => .error e
      | .ok ys => .ok (y :: ys)

/-- `getInitContainers`. -/
def getInitContainers (pod : Pod) : Except ProviderError (List AciInitContainer) :=
  mapExcept getInitContainer pod.initContainers

/-- The CPU request quantization of `getContainers` (lines 988-995):
`float64(MilliValue()/10.00) / 100.00`, where the inner division is Go
integer division, floored to the 0.01-core minimum; 1.00 core when the
CPU request entry is absent. -/
def cpuRequestOf (requests : Option ResourceList) : ℚ :=
  match requests.bind (fun r => r.cpuMilli) with
  | none => 1
  | some m =>
    let r : ℚ := ((m / 10 : ℕ) : ℚ) / 100
    if r < 1/100 then 1/100 else r

/-- The memory request quantization of `getContainers` (lines 997-1004):
`float64(Value()/100000000.00) / 10.00` with Go integer division, floored
to the 0.1 GB minimum; 1.50 GB when the memory request entry is absent. -/
def memoryRequestOf (requests : Option ResourceList) : ℚ :=
  match requests.bind (fun r => r.memoryBytes) with
  | none => 3/2
  | some b =>
    let r : ℚ := ((b / 100000000 : ℕ) : ℚ) / 10
    if r < 1/10 then 1/10 else r

/-- `getGPUSKU` error for a region with no GPU SKUs. -/
def gpuNoRegionMsg : String :=
  "the pod requires GPU resource, but ACI does not provide GPU enabled container group in this region"

/-- `getGPUSKU` error for an annotation matching no supported SKU. -/
def gpuUnsupportedMsg : String :=
  "the pod requires a GPU SKU that ACI does not support in this region"

/-- `getGPUSKU`: hard failure when the region supports no SKU; the first
case-insensitive match of the annotation-requested SKU otherwise; the first
supported SKU when the annotation is absent. -/
def getGPUSKU (p : Provider) (pod : Pod) : Except ProviderError String :=
  match p.gpuSKUs with
  | [] => .error (.general gpuNoRegionMsg)
  | first :: _ =>
    match lookupAnnot pod gpuTypeAnnKey with
    | some desired =>
      match p.gpuSKUs.find? (fun sku => eqFold desired sku) with
      | some sku => .ok sku
      | none => .error (.general gpuUnsupportedMsg)
    | none => .ok first

/-- `getContainers` error for a zero GPU count. -/
def gpuZeroMsg : String := "GPU must be a integer number"

/-- The resource-requirements block of the `getContainers` loop
(lines 988-1049): quantized requests; limits only when the pod declares a
limits map, defaulting each missing limit entry to the corresponding
request; GPU resolution inside the limits block. -/
def mkResources (p : Provider) (pod : Pod) (c : Container) : Except ProviderError AciResources :=
  let cpuReq := cpuRequestOf c.resources.requests
  let memReq := memoryRequestOf c.resources.requests
  match c.resources.limits with
  | none =>
    .ok { requests := { cpu := cpuReq, memoryInGB := memReq, gpu := none }, limits := none }
  | some lim =>
    let cpuLimit : ℚ :=
      match lim.cpuMilli with
      | some m => (m : ℚ) / 1000
      | none => cpuReq
    let memLimit : ℚ :=
      match lim.memoryBytes with
      | some b => ((b / 100000000 : ℕ) : ℚ) / 10
      | none => memReq
    match lim.gpu with
    | none =>
      .ok { requests := { cpu := cpuReq, memoryInGB := memReq, gpu := none },
            limits := some { cpu := cpuLimit, memoryInGB := memLimit, gpu := none } }
    | some g =>
      match getGPUSKU p pod with
      | .error e => .error e
      | .ok sku =>
        if g = 0 then .error (.general gpuZeroMsg)
        else
          .ok { requests := { cpu := cpuReq, memoryInGB := memReq, gpu := some { count := g, sku := sku } },
                limits := some { cpu := cpuLimit, memoryInGB := memLimit, gpu := some { count := g, sku := sku } } }

/-- `getProbe` error messages. -/
def probeBothMsg : String := "probe may not specify more than one of exec and httpGet"

/-- See `probeBothMsg`. -/
def probeNeitherMsg : String := "probe must specify one of exec and httpGet"

/-- See `probeBothMsg`. -/
def probeNamedPortMsg : String := "unable to find named port"

/-- `getProbe`: exactly one of exec / http-get must be present; a named
http-get port is resolved against the container's declared ports, a failed
resolution (the Go zero value 0) is an error. -/
def getProbe (probe : Probe) (ports : List ContainerPort) : Except ProviderError AciProbe :=
  if probe.execCommand.isSome && probe.httpGet.isSome then .error (.general probeBothMsg)
  else if probe.execCommand.isNone && probe.httpGet.isNone then .error (.general probeNeitherMsg)
  else
    match probe.httpGet with
    | none =>
      .ok { execCommand := probe.execCommand, httpGet := none,
            initialDelaySeconds := probe.initialDelaySeconds,
            failureThreshold := probe.failureThreshold,
            successThreshold := probe.successThreshold,
            timeoutSeconds := probe.timeoutSeconds,
            periodSeconds := probe.periodSeconds }
    | some hg =>
      let portValue : Nat :=
        match hg.port with
        | .intVal n => n
        | .strVal s => (((ports.find? (fun q => q.name = s)).map (fun q => q.containerPort)).getD 0)
      match hg.port with
      | .intVal _ =>
        .ok { execCommand := probe.execCommand,
              httpGet := some { port := portValue, path := hg.path, scheme := hg.scheme },
              initialDelaySeconds := probe.initialDelaySeconds,
              failureThreshold := probe.failureThreshold,
              successThreshold := probe.successThreshold,
              timeoutSeconds := probe.timeoutSeconds,
              periodSeconds := probe.periodSeconds }
      | .strVal _ =>
        if portValue = 0 then .error (.general probeNamedPortMsg)
        else
          .ok { execCommand := probe.execCommand,
                httpGet := some { port := portValue, path := hg.path, scheme := hg.scheme },
                initialDelaySeconds := probe.initialDelaySeconds,
                failureThreshold := probe.failureThreshold,
                successThreshold := probe.successThreshold,
                timeoutSeconds := probe.timeoutSeconds,
                periodSeconds := probe.periodSeconds }

/-- The `if ...Probe != nil { getProbe ... }` steps of the `getContainers` loop. -/
def translateProbeOpt (pr : Option Probe) (ports : Option (List ContainerPort)) :
    Except ProviderError (Option AciProbe) :=
  match pr with
  | none => .ok none
  | some probe =>
    match getProbe probe (ports.getD []) with
    | .error e => .error e
    | .ok q => .ok (some q)

/-- One iteration of the `getContainers` loop (lines 940-1067): the
args-without-command check first, then ports, volume mounts, environment
variables, resources (with GPU resolution) and finally the two probes. -/
def getContainer (p : Provider) (pod : Pod) (c : Container) : Except ProviderError AciContainer :=
  if c.command = [] ∧ c.args ≠ [] then .error (.invalidInput argsNoCommandMsg)
  else
    match mkResources p pod c with
    | .error e => .error e
    | .ok res =>
      match translateProbeOpt c.livenessProbe c.ports with
      | .error e => .error e
      | .ok liv =>
        match translateProbeOpt c.readinessProbe c.ports with
        | .error e => .error e
        | .ok rdy =>
          .ok { name := c.name, image := c.image, command := c.command ++ c.args,
                ports := (c.ports.getD []).map
                  (fun q => { port := q.containerPort, protocol := getProtocol q.protocol }),
                volumeMounts := getVolumeMounts c,
                env := getEnvironmentVariables c,
                resources := res,
                livenessProbe := liv, readinessProbe := rdy }

/-- `getContainers`. -/
def getContainers (p : Provider) (pod : Pod) : Except ProviderError (List AciContainer) :=
  mapExcept (getContainer p pod) pod.containers

/-- The `aci.LogAnalyticsMetadataKeyPodUUID` constant (defined in the client
package outside `src`); its exact value is never inspected by any claim. -/
def logAnalyticsPodUUIDKey : String := "pod-uuid"

/-- Go map insertion on the association-list model of metadata. -/
def setAssoc (l : List (String × String)) (k v : String) : List (String × String) :=
  if (l.find? (fun kv => kv.1 = k)).isSome then
    l.map (fun kv => if kv.1 = k then (k, v) else kv)
  else l ++ [(k, v)]

/-- `getDiagnostics`: when container-insights analytics is configured, stamp
the pod UID into a copy of the diagnostics metadata; otherwise pass the
provider's diagnostics through. -/
def getDiagnostics (p : Provider) (pod : Pod) : Option Diagnostics :=
  match p.diagnostics with
  | some d =>
    match d.logAnalytics with
    | some la =>
      if la.logType = "ContainerInsights" then
        some { logAnalytics := some { logType := la.logType,
                                      metadata := setAssoc la.metadata logAnalyticsPodUUIDKey pod.uid } }
      else p.diagnostics
    | none => p.diagnostics
  | none => p.diagnostics

/-- The names of volumes referenced by a service-account-path mount of some
container of the group (the `serviceAccountSecretVolumeName` set). -/
def saSecretVolumeNames (cg : ContainerGroup) : List String :=
  (cg.containers.map (fun c =>
    (c.volumeMounts.filter (fun vm => eqFold serviceAccountSecretMountPath vm.mountPath)).map
      (fun vm => vm.name))).flatten

/-- `filterWindowsServiceAccountSecretVolume`: on Windows, strip every volume
mount targeting the service-account secret mount path (case-insensitively)
from every container, and, when any mount was stripped, drop the volumes
those mounts referenced from the group's volume list. -/
def filterWindowsServiceAccountSecretVolume (osType : String) (cg : ContainerGroup) : ContainerGroup :=
  if eqFold osType "Windows" then
    let dropped := saSecretVolumeNames cg
    let cg2 := { cg with containers := cg.containers.map (fun c =>
      { c with volumeMounts :=
          c.volumeMounts.filter (fun vm => !(eqFold serviceAccountSecretMountPath vm.mountPath)) }) }
    if dropped.isEmpty then cg2
    else { cg2 with volumes := cg.volumes.filter (fun v => !(dropped.contains v.name)) }
  else cg

/-- `amendVnetResources` (defined outside `src`). Modelled from the spec:
when delegated-subnet mode is configured it amends the group with the subnet
delegation; it never attaches a public IP address and with no subnet
configured it leaves the group unchanged. -/
def amendVnetResources (p : Provider) (cg : ContainerGroup) : ContainerGroup :=
  if p.subnetName = "" then cg
  else { cg with subnetIds := some [p.subnetName] }

/-- The group-level port list of `CreatePod` (lines 322-336): every port of
every translated container, re-tagged with the TCP group protocol. -/
def groupPortsOf (containers : List AciContainer) : List AciPort :=
  (containers.map (fun c =>
    c.ports.map (fun q => ({ port := q.port, protocol := "TCP" } : AciPort)))).flatten

/-- The DNS name label attached to the public IP when the
`virtualkubelet.io/dnsnamelabel` annotation is present and non-empty. -/
def dnsLabelOf (pod : Pod) : Option String :=
  if lookupAnnotD pod dnsNameLabelAnnKey ≠ "" then
    some (lookupAnnotD pod dnsNameLabelAnnKey)
  else none

/-- The group-assembly tail of `CreatePod` (lines 313-359), once the four
fallible translation stages have succeeded: assign the translated pieces,
apply the Windows service-account volume filter, attach a public IP exactly
when some container port is exposed and no delegated subnet is configured,
stamp the tags and amend vnet resources. -/
def assembleGroup (p : Provider) (pod : Pod) (containers : List AciContainer)
    (credList : List ImageRegistryCredential) (volumes : List AciVolume)
    (initContainers : List AciInitContainer) : ContainerGroup :=
  let cg : ContainerGroup :=
    { location := p.region, restartPolicy := pod.restartPolicy,
      osType := p.operatingSystem,
      containers := containers, initContainers := initContainers,
      volumes := volumes, imageRegistryCredentials := credList,
      diagnostics := getDiagnostics p pod,
      ipAddress := none, tags := [], subnetIds := none }
  let cg := filterWindowsServiceAccountSecretVolume p.operatingSystem cg
  let ports := groupPortsOf containers
  let cg :=
    if ports.length > 0 ∧ p.subnetName = "" then
      { cg with ipAddress := some { ports := ports, ipType := "Public",
                                    dnsNameLabel := dnsLabelOf pod } }
    else cg
  let cg := { cg with tags :=
    [("PodName", pod.name), ("ClusterName", pod.clusterName),
     ("NodeName", pod.nodeName), ("Namespace", pod.ns),
     ("UID", pod.uid), ("CreationTimestamp", pod.creationTimestamp)] }
  amendVnetResources p cg

/-- `CreatePod` (lines 274-364): translate containers, image pull secrets,
volumes and init containers (in that order, aborting on the first error),
then assemble the container group via `assembleGroup` and hand it to
`CreateContainerGroup`. The image-pull-secret and volume stages read
external secret state, so their outcomes are parameters; a `.ok` result is
the group passed to the backend call, `.error` means the call is never
issued (every error path in the source returns before the call). -/
def createPod (p : Provider) (pod : Pod)
    (creds : Except ProviderError (List ImageRegistryCredential))
    (vols : Except ProviderError (List AciVolume)) : Except ProviderError ContainerGroup :=
  match getContainers p pod with
  | .error e => .error e
  | .ok containers =>
    match creds with
    | .error e => .error e
    | .ok credList =>
      match vols with
      | .error e => .error e
      | .ok volumes =>
        match getInitContainers pod with
        | .error e => .error e
        | .ok initContainers =>
          .ok (assembleGroup p pod containers credList volumes initContainers)

/-! ### The `GetPods` node filter (claim C10)

`GetPods` compares the listed group's `Tags["NodeName"]` *pointer* against
the address of the provider's `nodeName` field (`Tags["NodeName"] != &p.nodeName`).
To state this, string pointers are modelled explicitly as addresses (`Nat`)
into a heap of string values; a group deserialized from a backend list
response stores its tag strings at fresh addresses distinct from the
address of the provider's field. -/

/-- The fields of a listed container group that the `GetPods` filter reads:
the address of the `NodeName` tag value (`none` when the tag is absent or
`nil`) together with the identity the pod conversion would recover. -/
structure ListedGroup where
  nodeNameTagAddr : Option Nat
  ns : String
  name : String
deriving DecidableEq, Repr

/-- A `(namespace, name)` pod identifier as built by `ListActivePods`. -/
structure PodIdentifier where
  ns : String
  name : String
deriving DecidableEq, Repr

/-- `GetPods` (lines 614-653): a group whose `Tags["NodeName"]` pointer
differs from the address of the provider's `nodeName` field is skipped
(`continue`); the remaining groups are converted by `containerGroupToPod`
(defined outside `src`, hence the `convert` parameter), and a group failing
conversion is skipped and logged. -/
def getPods (nodeNameAddr : Nat) (convert : ListedGroup → Option PodIdentifier)
    (cgs : List ListedGroup) : List PodIdentifier :=
  cgs.filterMap (fun g => if g.nodeNameTagAddr = some nodeNameAddr then convert g else none)

/-- `ListActivePods` (lines 674-694): the identifiers of the pods `GetPods`
returned. -/
def listActivePods (nodeNameAddr : Nat) (convert : ListedGroup → Option PodIdentifier)
    (cgs : List ListedGroup) : List PodIdentifier :=
  (getPods nodeNameAddr convert cgs).map (fun pod => { ns := pod.ns, name := pod.name })

/-! ### Helper lemmas about the sequential translation -/

/-- A successful `mapExcept` run translates the list pointwise. -/
theorem mapExcept_ok_forall2 {α β : Type} {f : α → Except ProviderError β} :
    ∀ {l : List α} {ys : List β}, mapExcept f l = .ok ys →
      List.Forall₂ (fun x y => f x = .ok y) l ys := by
  intro l
  induction l with
  | nil =>
    intro ys h
    simp [mapExcept] at h
    subst h
    exact List.Forall₂.nil
  | cons x xs ih =>
    intro ys h
    cases hfx : f x with
    | error e => simp [mapExcept, hfx] at h
    | ok y =>
      cases hrest : mapExcept f xs with
      | error e => simp [mapExcept, hfx, hrest] at h
      | ok ys2 =>
        simp [mapExcept, hfx, hrest] at h
        subst h
        exact List.Forall₂.cons hfx (ih hrest)

/-- A left member of a pointwise-related pair of lists has a related right member. -/
theorem forall2_exists_of_mem_left {α β : Type} {R : α → β → Prop} :
    ∀ {l : List α} {ys : List β}, List.Forall₂ R l ys → ∀ {x : α}, x ∈ l → ∃ y ∈ ys, R x y := by
  intro l ys h
  induction h with
  | nil => intro x hx; cases hx
  | cons hr _ ih =>
    intro x hx
    cases hx with
    | head => exact ⟨_, List.mem_cons_self _ _, hr⟩
    | tail _ hx2 =>
      obtain ⟨y, hy, hr2⟩ := ih hx2
      exact ⟨y, List.mem_cons_of_mem _ hy, hr2⟩

/-- Mapping both sides of a pointwise relation that determines the images. -/
theorem forall2_map_eq {α β γ : Type} {R : α → β → Prop} {f : β → γ} {g : α → γ} :
    ∀ {l : List α} {ys : List β}, List.Forall₂ R l ys → (∀ x y, R x y → f y = g x) →
      ys.map f = l.map g := by
  intro l ys h hfg
  induction h with
  | nil => rfl
  | cons hr _ ih => simp only [List.map_cons, hfg _ _ hr, ih]

/-- If some element of the list fails to translate, the whole run fails,
and the error it fails with is the error of some element. -/
theorem mapExcept_error_of_mem {α β : Type} {f : α → Except ProviderError β} :
    ∀ {l : List α} {x : α} {e : ProviderError}, x ∈ l → f x = .error e →
      ∃ e2, mapExcept f l = .error e2 ∧ ∃ x2 ∈ l, f x2 = .error e2 := by
  intro l
  induction l with
  | nil => intro x e hx _; cases hx
  | cons a as ih =>
    intro x e hx hfx
    cases hfa : f a with
    | error e2 =>
      exact ⟨e2, by simp [mapExcept, hfa], a, List.mem_cons_self _ _, hfa⟩
    | ok y =>
      have hxas : x ∈ as := by
        cases hx with
        | head => rw [hfa] at hfx; cases hfx
        | tail _ h2 => exact h2
      obtain ⟨e2, hmap, x2, hx2, hfx2⟩ := ih hxas hfx
      exact ⟨e2, by simp [mapExcept, hfa, hmap], x2, List.mem_cons_of_mem _ hx2, hfx2⟩

/-- Inversion of a successful `getContainer` run: every field of the ACI
container is determined by the source container, with the resources and
probes coming from their (necessarily successful) sub-translations. -/
theorem getContainer_ok_inv {p : Provider} {pod : Pod} {c : Container} {ac : AciContainer}
    (h : getContainer p pod c = .ok ac) :
    ∃ res liv rdy, mkResources p pod c = .ok res ∧
      translateProbeOpt c.livenessProbe c.ports = .ok liv ∧
      translateProbeOpt c.readinessProbe c.ports = .ok rdy ∧
      ac = { name := c.name, image := c.image, command := c.command ++ c.args,
             ports := (c.ports.getD []).map
               (fun q => { port := q.containerPort, protocol := getProtocol q.protocol }),
             volumeMounts := getVolumeMounts c, env := getEnvironmentVariables c,
             resources := res, livenessProbe := liv, readinessProbe := rdy } := by
  unfold getContainer at h
  split at h
  · cases h
  · split at h
    · cases h
    · next res heq =>
      split at h
      · cases h
      · next liv heq2 =>
        split at h
        · cases h
        · next rdy heq3 =>
          cases h
          exact ⟨res, liv, rdy, heq, heq2, heq3, rfl⟩

/-- A successful `mkResources` run carries exactly the quantized CPU and
memory requests. -/
theorem mkResources_ok_requests {p : Provider} {pod : Pod} {c : Container} {res : AciResources}
    (h : mkResources p pod c = .ok res) :
    res.requests.cpu = cpuRequestOf c.resources.requests ∧
    res.requests.memoryInGB = memoryRequestOf c.resources.requests := by
  unfold mkResources at h
  repeat' split at h
  all_goals cases h
  all_goals exact ⟨rfl, rfl⟩

/-- A successful `mkResources` run emits no limits block when the pod
declares no limits map, and defaults each absent limit entry to the
corresponding quantized request when it does. -/
theorem mkResources_ok_limits {p : Provider} {pod : Pod} {c : Container} {res : AciResources}
    (h : mkResources p pod c = .ok res) :
    (c.resources.limits = none → res.limits = none) ∧
    (∀ lim, c.resources.limits = some lim →
      ∃ al, res.limits = some al ∧
        (lim.cpuMilli = none → al.cpu = res.requests.cpu) ∧
        (lim.memoryBytes = none → al.memoryInGB = res.requests.memoryInGB)) := by
  unfold mkResources at h
  split at h
  · next hnone =>
    cases h
    refine ⟨fun _ => rfl, fun lim hlim => ?_⟩
    rw [hnone] at hlim
    cases hlim
  · next lim0 hsome =>
    refine ⟨(fun hnone => by rw [hnone] at hsome; cases hsome), fun lim hlim => ?_⟩
    rw [hsome] at hlim
    cases hlim
    repeat' split at h
    all_goals cases h
    all_goals exact ⟨_, rfl, fun hcpu => by simp_all, fun hmem => by simp_all⟩

/-- Every error `getInitContainer` can produce is a validation
(`errdefs.InvalidInput`) error. -/
theorem getInitContainer_error_invalid {c : Container} {e : ProviderError}
    (h : getInitContainer c = .error e) : ∃ msg, e = .invalidInput msg := by
  unfold getInitContainer at h
  split at h
  · next e2 heq =>
    unfold verifyContainer at heq
    split at heq
    · cases heq
      cases h
      exact ⟨argsNoCommandMsg, rfl⟩
    · cases heq
  · split_ifs at h <;> cases h <;> exact ⟨_, rfl⟩

/-- An init container declaring any of the disallowed fields fails to
translate. -/
theorem getInitContainer_error_of_bad {c : Container}
    (hbad : c.ports.isSome = true ∨ c.resources.requests.isSome = true ∨
            c.resources.limits.isSome = true ∨ c.livenessProbe.isSome = true ∨
            c.readinessProbe.isSome = true) :
    ∃ e, getInitContainer c = .error e := by
  unfold getInitContainer
  split
  · exact ⟨_, rfl⟩
  · split_ifs with h1 h2 h3 h4 h5
    · exact ⟨_, rfl⟩
    · exact ⟨_, rfl⟩
    · exact ⟨_, rfl⟩
    · exact ⟨_, rfl⟩
    · exact ⟨_, rfl⟩
    · rcases hbad with hb | hb | hb | hb | hb <;> simp_all

/-- The floor-at-a-minimum pattern of the quantization code is a `max`. -/
theorem floor_min_eq_max (x q : ℚ) : (if x < q then q else x) = max q x := by
  rcases le_or_lt q x with hle | hlt
  · rw [if_neg (not_lt.mpr hle), max_eq_right hle]
  · rw [if_pos hlt, max_eq_left hlt.le]

/-- The CPU quantization written as the spec writes it. -/
theorem cpuRequestOf_eq_max (requests : Option ResourceList) :
    cpuRequestOf requests =
      match requests.bind (fun r => r.cpuMilli) with
      | none => 1
      | some m => max (1/100 : ℚ) (((m / 10 : ℕ) : ℚ) / 100) := by
  unfold cpuRequestOf
  cases requests.bind (fun r => r.cpuMilli) with
  | none => rfl
  | some m => simp only [floor_min_eq_max]

/-- The memory quantization written as the spec writes it. -/
theorem memoryRequestOf_eq_max (requests : Option ResourceList) :
    memoryRequestOf requests =
      match requests.bind (fun r => r.memoryBytes) with
      | none => 3/2
      | some b => max (1/10 : ℚ) (((b / 100000000 : ℕ) : ℚ) / 10) := by
  unfold memoryRequestOf
  cases requests.bind (fun r => r.memoryBytes) with
  | none => rfl
  | some b => simp only [floor_min_eq_max]

/-- A sample provider for the concrete witness evaluations. -/
def sampleProvider : Provider :=
  { resourceGroup := "rg", region := "westus", nodeName := "vk-node",
    operatingSystem := "Linux", subnetName := "", gpuSKUs := [],
    diagnostics := none }

/-- A minimal well-formed container for the concrete witness evaluations. -/
def sampleContainer : Container :=
  { name := "c", image := "img", command := ["sh"], args := [],
    ports := none, volumeMounts := [], env := [],
    resources := { requests := none, limits := none },
    livenessProbe := none, readinessProbe := none }

/-- A minimal pod for the concrete witness evaluations. -/
def samplePod : Pod :=
  { name := "p", ns := "default", clusterName := "", uid := "u1",
    creationTimestamp := "t", nodeName := "vk-node", restartPolicy := "Always",
    annots := [], containers := [sampleContainer], initContainers := [] }

/-- C1: for every container of a workload-unit spec that translates
successfully, the CPU request in cores equals
`max(0.01, round_to_0.01(milliCPU/10))`, where the rounding is the
round-down of the code's integer division (matching the spec's own gloss
"rounds down then floors"), and defaults to 1.00 core when no CPU request
entry is present; in particular 5 milliCPU and 12 milliCPU quantize to
0.01 and 1000 milliCPU to 1.00. -/
theorem c1_cpu_request_quantization :
    (∀ (p : Provider) (pod : Pod) (c : Container) (ac : AciContainer),
      getContainer p pod c = .ok ac →
        ac.resources.requests.cpu =
          match c.resources.requests.bind (fun r => r.cpuMilli) with
          | none => 1
          | some m => max (1/100 : ℚ) (((m / 10 : ℕ) : ℚ) / 100))
    ∧ cpuRequestOf (some { cpuMilli := some 5, memoryBytes := none, gpu := none }) = 1/100
    ∧ cpuRequestOf (some { cpuMilli := some 12, memoryBytes := none, gpu := none }) = 1/100
    ∧ cpuRequestOf (some { cpuMilli := some 1000, memoryBytes := none, gpu := none }) = 1 := by
  refine ⟨?_, by norm_num [cpuRequestOf], by norm_num [cpuRequestOf], by norm_num [cpuRequestOf]⟩
  intro p pod c ac h
  obtain ⟨res, liv, rdy, hres, _, _, hac⟩ := getContainer_ok_inv h
  obtain ⟨hcpu, _⟩ := mkResources_ok_requests hres
  subst hac
  show res.requests.cpu = _
  rw [hcpu, cpuRequestOf_eq_max]

/-- The container of the C1 witness: a 500 milliCPU request. -/
def c1Container : Container :=
  { sampleContainer with resources :=
      { requests := some { cpuMilli := some 500, memoryBytes := none, gpu := none },
        limits := none } }

/-- The pod of the C1 witness. -/
def c1Pod : Pod := { samplePod with containers := [c1Container] }

/-- The translated form of `c1Container`: 0.50 cores, default 1.5 GB memory. -/
def c1Aci : AciContainer :=
  { name := "c", image := "img", command := ["sh"], ports := [], volumeMounts := [], env := [],
    resources := { requests := { cpu := 1/2, memoryInGB := 3/2, gpu := none }, limits := none },
    livenessProbe := none, readinessProbe := none }

/-- Concrete instantiation of `c1_cpu_request_quantization`: the container
requesting 500 milliCPU translates, and its translated CPU request obeys
the quantization formula. -/
theorem c1_witness :
    c1Aci.resources.requests.cpu =
      match c1Container.resources.requests.bind (fun r => r.cpuMilli) with
      | none => 1
      | some m => max (1/100 : ℚ) (((m / 10 : ℕ) : ℚ) / 100) :=
  c1_cpu_request_quantization.1 sampleProvider c1Pod c1Container c1Aci (by
    simp only [getContainer, mkResources, cpuRequestOf, memoryRequestOf, translateProbeOpt,
      getVolumeMounts, getEnvironmentVariables, c1Pod, c1Container, sampleContainer,
      sampleProvider, c1Aci]
    norm_num)

/-- C2: for every container of a workload-unit spec that translates
successfully, the memory request in GB equals
`max(0.1, round_to_0.1(bytes/1e8))`, where the rounding is the round-down
of the code's integer division (matching the spec's own "floor" gloss), and
defaults to 1.50 GB when no memory request entry is present; in particular
50,000,000 bytes quantize to 0.1 GB. -/
theorem c2_memory_request_quantization :
    (∀ (p : Provider) (pod : Pod) (c : Container) (ac : AciContainer),
      getContainer p pod c = .ok ac →
        ac.resources.requests.memoryInGB =
          match c.resources.requests.bind (fun r => r.memoryBytes) with
          | none => 3/2
          | some b => max (1/10 : ℚ) (((b / 100000000 : ℕ) : ℚ) / 10))
    ∧ memoryRequestOf (some { cpuMilli := none, memoryBytes := some 50000000, gpu := none }) = 1/10 := by
  refine ⟨?_, by norm_num [memoryRequestOf]⟩
  intro p pod c ac h
  obtain ⟨res, liv, rdy, hres, _, _, hac⟩ := getContainer_ok_inv h
  obtain ⟨_, hmem⟩ := mkResources_ok_requests hres
  subst hac
  show res.requests.memoryInGB = _
  rw [hmem, memoryRequestOf_eq_max]

/-- The container of the C2 witness: a 2,000,000,000-byte memory request. -/
def c2Container : Container :=
  { sampleContainer with resources :=
      { requests := some { cpuMilli := none, memoryBytes := some 2000000000, gpu := none },
        limits := none } }

/-- The pod of the C2 witness. -/
def c2Pod : Pod := { samplePod with containers := [c2Container] }

/-- The translated form of `c2Container`: default 1.00 cores, 2.0 GB memory. -/
def c2Aci : AciContainer :=
  { name := "c", image := "img", command := ["sh"], ports := [], volumeMounts := [], env := [],
    resources := { requests := { cpu := 1, memoryInGB := 2, gpu := none }, limits := none },
    livenessProbe := none, readinessProbe := none }

/-- Concrete instantiation of `c2_memory_request_quantization`: the container
requesting 2,000,000,000 bytes translates, and its translated memory request
obeys the quantization formula. -/
theorem c2_witness :
    c2Aci.resources.requests.memoryInGB =
      match c2Container.resources.requests.bind (fun r => r.memoryBytes) with
      | none => 3/2
      | some b => max (1/10 : ℚ) (((b / 100000000 : ℕ) : ℚ) / 10) :=
  c2_memory_request_quantization.1 sampleProvider c2Pod c2Container c2Aci (by
    simp only [getContainer, mkResources, cpuRequestOf, memoryRequestOf, translateProbeOpt,
      getVolumeMounts, getEnvironmentVariables, c2Pod, c2Container, sampleContainer,
      sampleProvider, c2Aci]
    norm_num)

/-- Whether a translation outcome is a success (the Go `err == nil`). -/
def exceptIsOk {α : Type} : Except ProviderError α → Bool
  | .ok _ => true
  | .error _ => false

/-- Inversion of a successful `createPod` run: all four fallible stages
succeeded and the returned group is their assembly. -/
theorem createPod_ok_inv {p : Provider} {pod : Pod}
    {creds : Except ProviderError (List ImageRegistryCredential)}
    {vols : Except ProviderError (List AciVolume)} {cg : ContainerGroup}
    (h : createPod p pod creds vols = .ok cg) :
    ∃ cs cl vl ics, getContainers p pod = .ok cs ∧ creds = .ok cl ∧ vols = .ok vl ∧
      getInitContainers pod = .ok ics ∧ cg = assembleGroup p pod cs cl vl ics := by
  unfold createPod at h
  repeat' split at h
  all_goals cases h
  exact ⟨_, _, _, _, by assumption, rfl, rfl, by assumption, rfl⟩

/-- C3: a workload-unit spec containing a container or an init-container
that declares `args` with an empty `command` never reaches the backend
call: `createPod` returns an error, and the offending container's own
translation fails with the `errdefs.InvalidInput` validation error. -/
theorem c3_args_without_command_rejected {p : Provider} {pod : Pod}
    {creds : Except ProviderError (List ImageRegistryCredential)}
    {vols : Except ProviderError (List AciVolume)} {c : Container}
    (hc : c ∈ pod.containers ∨ c ∈ pod.initContainers)
    (hargs : c.command = [] ∧ c.args ≠ []) :
    (∀ cg, createPod p pod creds vols ≠ .ok cg) ∧
    (c ∈ pod.containers → getContainer p pod c = .error (.invalidInput argsNoCommandMsg)) ∧
    (c ∈ pod.initContainers → getInitContainer c = .error (.invalidInput argsNoCommandMsg)) := by
  have hgc : getContainer p pod c = .error (.invalidInput argsNoCommandMsg) := by
    unfold getContainer
    rw [if_pos hargs]
  have hgic : getInitContainer c = .error (.invalidInput argsNoCommandMsg) := by
    unfold getInitContainer verifyContainer
    rw [if_pos hargs]
  refine ⟨?_, fun _ => hgc, fun _ => hgic⟩
  intro cg hok
  obtain ⟨cs, cl, vl, ics, hcs, _, _, hics, _⟩ := createPod_ok_inv hok
  have hcs2 : mapExcept (getContainer p pod) pod.containers = .ok cs := hcs
  have hics2 : mapExcept getInitContainer pod.initContainers = .ok ics := hics
  rcases hc with hmem | hmem
  · obtain ⟨y, _, hy⟩ := forall2_exists_of_mem_left (mapExcept_ok_forall2 hcs2) hmem
    rw [hgc] at hy
    cases hy
  · obtain ⟨y, _, hy⟩ := forall2_exists_of_mem_left (mapExcept_ok_forall2 hics2) hmem
    rw [hgic] at hy
    cases hy

/-- The container of the C3 witness: args with an empty command. -/
def c3Container : Container := { sampleContainer with command := [], args := ["arg"] }

/-- The pod of the C3 witness. -/
def c3Pod : Pod := { samplePod with containers := [c3Container] }

/-- Concrete instantiation of `c3_args_without_command_rejected`: the create
path for the offending pod issues no backend call and the container fails
validation. -/
theorem c3_witness :
    exceptIsOk (createPod sampleProvider c3Pod (Except.ok []) (Except.ok [])) = false ∧
    getContainer sampleProvider c3Pod c3Container = .error (.invalidInput argsNoCommandMsg) := by
  have h := @c3_args_without_command_rejected sampleProvider c3Pod
    (Except.ok []) (Except.ok []) c3Container
    (Or.inl (by decide)) (by decide)
  refine ⟨?_, h.2.1 (by decide)⟩
  cases hres : createPod sampleProvider c3Pod (Except.ok []) (Except.ok []) with
  | ok cg => exact absurd hres (h.1 cg)
  | error e => rfl

/-- C5: for every container of a workload-unit spec that translates
successfully, the translated environment is exactly the source environment
with empty-valued variables dropped, and every retained variable backed by
a secret key reference is emitted as a secure value (no plaintext value). -/
theorem c5_env_var_translation {p : Provider} {pod : Pod} {c : Container} {ac : AciContainer}
    (h : getContainer p pod c = .ok ac) :
    ac.env = (c.env.filter (fun e => e.value ≠ "")).map getACIEnvVar ∧
    (∀ e ∈ c.env, e.value ≠ "" → e.fromSecret = true →
      getACIEnvVar e = { name := e.name, value := none, secureValue := some e.value }) := by
  obtain ⟨res, liv, rdy, _, _, _, hac⟩ := getContainer_ok_inv h
  subst hac
  refine ⟨rfl, fun e _ _ hs => ?_⟩
  unfold getACIEnvVar
  rw [if_pos hs]

/-- The container of the C5 witness: an empty-valued variable, a retained
secret-backed variable and a retained plain variable. -/
def c5Container : Container :=
  { sampleContainer with env :=
      [ { name := "EMPTY", value := "", fromSecret := false },
        { name := "SEC", value := "s3", fromSecret := true },
        { name := "PLAIN", value := "v", fromSecret := false } ] }

/-- The pod of the C5 witness. -/
def c5Pod : Pod := { samplePod with containers := [c5Container] }

/-- The translated form of `c5Container`. -/
def c5Aci : AciContainer :=
  { name := "c", image := "img", command := ["sh"], ports := [], volumeMounts := [],
    env := [ { name := "SEC", value := none, secureValue := some "s3" },
             { name := "PLAIN", value := some "v", secureValue := none } ],
    resources := { requests := { cpu := 1, memoryInGB := 3/2, gpu := none }, limits := none },
    livenessProbe := none, readinessProbe := none }

/-- Concrete instantiation of `c5_env_var_translation`: the empty-valued
variable is dropped and the secret-backed one is emitted as a secure value. -/
theorem c5_witness :
    getContainer sampleProvider c5Pod c5Container = .ok c5Aci ∧
    c5Aci.env = (c5Container.env.filter (fun e => e.value ≠ "")).map getACIEnvVar := by
  have h : getContainer sampleProvider c5Pod c5Container = .ok c5Aci := by rfl
  exact ⟨h, (c5_env_var_translation h).1⟩

/-- C7: a workload-unit spec whose init-container list contains a container
declaring ports, resource requests, resource limits, a liveness probe or a
readiness probe fails init-container translation with an
`errdefs.InvalidInput` validation error (the field is not silently dropped). -/
theorem c7_init_container_disallowed_fields {pod : Pod} {c : Container}
    (hc : c ∈ pod.initContainers)
    (hbad : c.ports.isSome = true ∨ c.resources.requests.isSome = true ∨
            c.resources.limits.isSome = true ∨ c.livenessProbe.isSome = true ∨
            c.readinessProbe.isSome = true) :
    ∃ msg, getInitContainers pod = .error (.invalidInput msg) := by
  obtain ⟨e, he⟩ := getInitContainer_error_of_bad hbad
  obtain ⟨e2, hmap, x2, hx2, hfx2⟩ := mapExcept_error_of_mem hc he
  obtain ⟨msg, hmsg⟩ := getInitContainer_error_invalid hfx2
  subst hmsg
  exact ⟨msg, hmap⟩

/-- The init container of the C7 witness: it declares (an empty) ports list. -/
def c7Container : Container := { sampleContainer with ports := some [] }

/-- The pod of the C7 witness. -/
def c7Pod : Pod := { samplePod with containers := [], initContainers := [c7Container] }

/-- Concrete instantiation of `c7_init_container_disallowed_fields`. -/
theorem c7_witness : ∃ msg, getInitContainers c7Pod = .error (.invalidInput msg) :=
  @c7_init_container_disallowed_fields c7Pod c7Container
    (by decide) (Or.inl (by decide))

/-- The translated form of `sampleContainer` (no resource entries at all):
default requests, no limits block. -/
def sampleAci : AciContainer :=
  { name := "c", image := "img", command := ["sh"], ports := [], volumeMounts := [], env := [],
    resources := { requests := { cpu := 1, memoryInGB := 3/2, gpu := none }, limits := none },
    livenessProbe := none, readinessProbe := none }

/-- C9 counterexample: `sampleContainer` leaves the limits map entirely
unspecified (`limits = none`), yet its translated container carries *no*
limits block at all (`limits = none` on the ACI side), so the translated
CPU and memory limits do not equal (mirror) the quantized requests — the
claim fails when no limit entry is present because the code only mirrors
inside `if Resources.Limits != nil`. -/
theorem c9_counterexample :
    getContainer sampleProvider samplePod sampleContainer = .ok sampleAci ∧
    sampleContainer.resources.limits = none ∧
    sampleAci.resources.limits ≠
      some { cpu := sampleAci.resources.requests.cpu,
             memoryInGB := sampleAci.resources.requests.memoryInGB,
             gpu := sampleAci.resources.requests.gpu } := by
  refine ⟨rfl, rfl, ?_⟩
  intro hcontra
  cases hcontra

/-- C9 (amended): when the pod declares a limits map, each missing CPU or
memory limit entry defaults to the corresponding quantized request; when the
pod declares no limits map at all, the translated request carries no limits
block. -/
theorem c9_limits_defaulting {p : Provider} {pod : Pod} {c : Container} {ac : AciContainer}
    (h : getContainer p pod c = .ok ac) :
    (c.resources.limits = none → ac.resources.limits = none) ∧
    (∀ lim, c.resources.limits = some lim →
      ∃ al, ac.resources.limits = some al ∧
        (lim.cpuMilli = none → al.cpu = ac.resources.requests.cpu) ∧
        (lim.memoryBytes = none → al.memoryInGB = ac.resources.requests.memoryInGB)) := by
  obtain ⟨res, liv, rdy, hres, _, _, hac⟩ := getContainer_ok_inv h
  subst hac
  exact mkResources_ok_limits hres

/-- The container of the C9 witness: a present-but-entryless limits map. -/
def c9Container : Container :=
  { sampleContainer with resources :=
      { requests := none, limits := some { cpuMilli := none, memoryBytes := none, gpu := none } } }

/-- The pod of the C9 witness. -/
def c9Pod : Pod := { samplePod with containers := [c9Container] }

/-- The translated form of `c9Container`: limits mirror the requests. -/
def c9Aci : AciContainer :=
  { name := "c", image := "img", command := ["sh"], ports := [], volumeMounts := [], env := [],
    resources := { requests := { cpu := 1, memoryInGB := 3/2, gpu := none },
                   limits := some { cpu := 1, memoryInGB := 3/2, gpu := none } },
    livenessProbe := none, readinessProbe := none }

/-- Concrete instantiation of `c9_limits_defaulting`: with a limits map
present but empty, both limits default to the quantized requests. -/
theorem c9_witness :
    getContainer sampleProvider c9Pod c9Container = .ok c9Aci ∧
    ∃ al, c9Aci.resources.limits = some al ∧
      al.cpu = c9Aci.resources.requests.cpu ∧
      al.memoryInGB = c9Aci.resources.requests.memoryInGB := by
  have h : getContainer sampleProvider c9Pod c9Container = .ok c9Aci := by rfl
  obtain ⟨al, hal, hcpu, hmem⟩ :=
    (c9_limits_defaulting h).2 { cpuMilli := none, memoryBytes := none, gpu := none } rfl
  exact ⟨h, al, hal, hcpu rfl, hmem rfl⟩

/-- A resources-translation failure aborts the container's translation. -/
theorem getContainer_error_of_mkResources {p : Provider} {pod : Pod} {c : Container}
    {e : ProviderError} (h : mkResources p pod c = .error e) :
    ∃ e2, getContainer p pod c = .error e2 := by
  unfold getContainer
  split
  · exact ⟨_, rfl⟩
  · rw [h]
    exact ⟨e, rfl⟩

/-- `getGPUSKU` fails when the region supports no SKU, or when the requested
SKU annotation matches no supported SKU case-insensitively. -/
theorem getGPUSKU_error_cases {p : Provider} {pod : Pod}
    (h : p.gpuSKUs = [] ∨ ∃ d, lookupAnnot pod gpuTypeAnnKey = some d ∧
        p.gpuSKUs.find? (fun sku => eqFold d sku) = none) :
    ∃ e, getGPUSKU p pod = .error e := by
  rcases h with hskus | ⟨d, hd, hfind⟩
  · exact ⟨.general gpuNoRegionMsg, by simp [getGPUSKU, hskus]⟩
  · cases hskus : p.gpuSKUs with
    | nil => exact ⟨.general gpuNoRegionMsg, by simp [getGPUSKU, hskus]⟩
    | cons first rest =>
      rw [hskus] at hfind
      exact ⟨.general gpuUnsupportedMsg, by simp [getGPUSKU, hskus, hd, hfind]⟩

/-- The GPU block of `mkResources` fails under any of the three hard-failure
conditions: empty supported-SKU list, unmatched SKU annotation, zero GPU count. -/
theorem mkResources_gpu_error {p : Provider} {pod : Pod} {c : Container}
    {lim : ResourceList} {g : Nat}
    (hlim : c.resources.limits = some lim) (hg : lim.gpu = some g)
    (hfail : p.gpuSKUs = [] ∨
      (∃ d, lookupAnnot pod gpuTypeAnnKey = some d ∧
        p.gpuSKUs.find? (fun sku => eqFold d sku) = none) ∨
      g = 0) :
    ∃ e, mkResources p pod c = .error e := by
  rcases hfail with hf | hf | hf
  · obtain ⟨e, he⟩ := @getGPUSKU_error_cases p pod (Or.inl hf)
    exact ⟨e, by simp [mkResources, hlim, hg, he]⟩
  · obtain ⟨e, he⟩ := @getGPUSKU_error_cases p pod (Or.inr hf)
    exact ⟨e, by simp [mkResources, hlim, hg, he]⟩
  · cases hsku : getGPUSKU p pod with
    | error e => exact ⟨e, by simp [mkResources, hlim, hg, hsku]⟩
    | ok sku => exact ⟨.general gpuZeroMsg, by simp [mkResources, hlim, hg, hsku, hf]⟩

/-- C4: with a GPU limit present, SKU resolution selects the first supported
SKU equal (case-insensitively) to the annotation-requested one, or the first
supported SKU when the annotation is absent; and when the supported-SKU list
is empty, the annotation matches no supported SKU, or the GPU count is zero,
the container translation fails with a hard error — no partial request is
returned (the translation result is an error, not a container). -/
theorem c4_gpu_sku_resolution :
    (∀ (p : Provider) (pod : Pod) (first : String) (rest : List String),
      p.gpuSKUs = first :: rest →
        (lookupAnnot pod gpuTypeAnnKey = none → getGPUSKU p pod = .ok first) ∧
        (∀ d, lookupAnnot pod gpuTypeAnnKey = some d →
          getGPUSKU p pod =
            match p.gpuSKUs.find? (fun sku => eqFold d sku) with
            | some sku => .ok sku
            | none => .error (.general gpuUnsupportedMsg))) ∧
    (∀ (p : Provider) (pod : Pod) (c : Container) (lim : ResourceList) (g : Nat),
      c.resources.limits = some lim → lim.gpu = some g →
      (p.gpuSKUs = [] ∨
       (∃ d, lookupAnnot pod gpuTypeAnnKey = some d ∧
          p.gpuSKUs.find? (fun sku => eqFold d sku) = none) ∨
       g = 0) →
      ∃ e2, getContainer p pod c = .error e2) := by
  constructor
  · intro p pod first rest hskus
    constructor
    · intro hno
      simp [getGPUSKU, hskus, hno]
    · intro d hd
      simp only [getGPUSKU, hskus, hd]
  · intro p pod c lim g hlim hg hfail
    obtain ⟨e, he⟩ := mkResources_gpu_error hlim hg hfail
    exact getContainer_error_of_mkResources he

/-- The provider of the C4 witness: region supports only the P100 SKU. -/
def c4Provider : Provider := { sampleProvider with gpuSKUs := ["P100"] }

/-- The container of the C4 witness: GPU limit of 2. -/
def c4Container : Container :=
  { sampleContainer with resources :=
      { requests := none,
        limits := some { cpuMilli := none, memoryBytes := none, gpu := some 2 } } }

/-- The pod of the C4 witness: annotation requests the K80 SKU. -/
def c4Pod : Pod :=
  { samplePod with containers := [c4Container], annots := [(gpuTypeAnnKey, "K80")] }

/-- Concrete instantiation of `c4_gpu_sku_resolution` on the spec scenario:
GPU limit 2, annotation "K80", supported list ["P100"] — SKU resolution
fails and the container translation returns an error (no partial request). -/
theorem c4_witness :
    getGPUSKU c4Provider c4Pod = .error (.general gpuUnsupportedMsg) ∧
    exceptIsOk (getContainer c4Provider c4Pod c4Container) = false := by
  have h1 := (c4_gpu_sku_resolution.1 c4Provider c4Pod "P100" [] (by decide)).2 "K80" (by decide)
  have h2 := c4_gpu_sku_resolution.2 c4Provider c4Pod c4Container
    { cpuMilli := none, memoryBytes := none, gpu := some 2 } 2 (by decide) (by decide)
    (Or.inr (Or.inl ⟨"K80", by decide, by decide⟩))
  obtain ⟨e2, he2⟩ := h2
  constructor
  · rw [h1]
    rfl
  · rw [he2]
    rfl

/-- On Windows, the volume filter rewrites the group as: every container
keeps only its mounts not targeting the service-account path, and the
volume list keeps only the volumes not referenced by a dropped mount. -/
theorem filterWindows_eq_of_windows {osType : String} (cg : ContainerGroup)
    (hos : eqFold osType "Windows" = true) :
    filterWindowsServiceAccountSecretVolume osType cg =
      { cg with
        containers := cg.containers.map (fun c =>
          { c with volumeMounts :=
              c.volumeMounts.filter (fun vm => !(eqFold serviceAccountSecretMountPath vm.mountPath)) }),
        volumes :=
          cg.volumes.filter (fun v => !((saSecretVolumeNames cg).contains v.name)) } := by
  by_cases hempty : (saSecretVolumeNames cg).isEmpty = true
  · have hnil : saSecretVolumeNames cg = [] := by
      simpa [List.isEmpty_iff] using hempty
    simp [filterWindowsServiceAccountSecretVolume, hos, hempty, hnil, List.filter_true]
  · simp [filterWindowsServiceAccountSecretVolume, hos, hempty]

/-- C6: with OS type "Windows" (case-insensitively), the translation strips
from every container each volume mount whose mount path equals the
service-account secret mount path case-insensitively, and strips from the
group's volume list every volume referenced by such a mount; in particular
no surviving volume shares its name with a stripped mount. -/
theorem c6_windows_service_account_volume_filter {osType : String} {cg : ContainerGroup}
    (hos : eqFold osType "Windows" = true) :
    (filterWindowsServiceAccountSecretVolume osType cg).containers =
      cg.containers.map (fun c =>
        { c with volumeMounts :=
            c.volumeMounts.filter (fun vm => !(eqFold serviceAccountSecretMountPath vm.mountPath)) }) ∧
    (filterWindowsServiceAccountSecretVolume osType cg).volumes =
      cg.volumes.filter (fun v => !((saSecretVolumeNames cg).contains v.name)) ∧
    (∀ c ∈ cg.containers, ∀ vm ∈ c.volumeMounts,
      eqFold serviceAccountSecretMountPath vm.mountPath = true →
      ∀ v ∈ (filterWindowsServiceAccountSecretVolume osType cg).volumes, v.name ≠ vm.name) := by
  rw [filterWindows_eq_of_windows cg hos]
  refine ⟨rfl, rfl, ?_⟩
  intro c hc vm hvm hpath v hv heq
  have hmemName : vm.name ∈ saSecretVolumeNames cg := by
    simp only [saSecretVolumeNames, List.mem_flatten, List.mem_map]
    refine ⟨(c.volumeMounts.filter (fun vm2 => eqFold serviceAccountSecretMountPath vm2.mountPath)).map (fun vm2 => vm2.name), ⟨c, hc, rfl⟩, ?_⟩
    exact List.mem_map_of_mem _ (List.mem_filter.mpr ⟨hvm, hpath⟩)
  have hvf := List.mem_filter.mp hv
  rw [heq] at hvf
  have hnotmem : vm.name ∉ saSecretVolumeNames cg := by
    simpa using hvf.2
  exact hnotmem hmemName

/-- The translated container of the C6 witness: its only volume mount
targets the service-account path. -/
def c6AciContainer : AciContainer :=
  { name := "c", image := "img", command := ["sh"], ports := [],
    volumeMounts := [ { name := "sa-vol",
                        mountPath := "/var/run/secrets/kubernetes.io/serviceaccount",
                        readOnly := true } ],
    env := [],
    resources := { requests := { cpu := 1, memoryInGB := 3/2, gpu := none }, limits := none },
    livenessProbe := none, readinessProbe := none }

/-- The container group of the C6 witness: one container whose only mount
targets the service-account path, one matching volume. -/
def c6Group : ContainerGroup :=
  { location := "westus", restartPolicy := "Always", osType := "Windows",
    containers := [c6AciContainer],
    initContainers := [], volumes := [ { name := "sa-vol" } ],
    imageRegistryCredentials := [], diagnostics := none, ipAddress := none,
    tags := [], subnetIds := none }

/-- Concrete instantiation of `c6_windows_service_account_volume_filter` on
the spec scenario, plus the concrete outcome: the container ends with zero
volume mounts and the group with zero volumes. -/
theorem c6_witness :
    (filterWindowsServiceAccountSecretVolume "Windows" c6Group).containers =
      c6Group.containers.map (fun c =>
        { c with volumeMounts :=
            c.volumeMounts.filter (fun vm => !(eqFold serviceAccountSecretMountPath vm.mountPath)) }) ∧
    (filterWindowsServiceAccountSecretVolume "Windows" c6Group).volumes =
      c6Group.volumes.filter (fun v => !((saSecretVolumeNames c6Group).contains v.name)) ∧
    (filterWindowsServiceAccountSecretVolume "Windows" c6Group).containers.map
      (fun c => c.volumeMounts) = [[]] ∧
    (filterWindowsServiceAccountSecretVolume "Windows" c6Group).volumes = [] := by
  have h := @c6_windows_service_account_volume_filter "Windows" c6Group (by decide)
  exact ⟨h.1, h.2.1, by decide, by decide⟩

/-- The Windows volume filter never touches the group's IP address. -/
theorem filterWindows_ipAddress (osType : String) (cg : ContainerGroup) :
    (filterWindowsServiceAccountSecretVolume osType cg).ipAddress = cg.ipAddress := by
  by_cases hos : eqFold osType "Windows" = true
  · by_cases hempty : (saSecretVolumeNames cg).isEmpty = true
    · simp [filterWindowsServiceAccountSecretVolume, hos, hempty]
    · simp [filterWindowsServiceAccountSecretVolume, hos, hempty]
  · simp [filterWindowsServiceAccountSecretVolume, hos]

/-- The vnet amendment never touches the group's IP address. -/
theorem amendVnet_ipAddress (p : Provider) (cg : ContainerGroup) :
    (amendVnetResources p cg).ipAddress = cg.ipAddress := by
  unfold amendVnetResources
  split <;> rfl

/-- The assembled group's IP address: present with the exposed group ports,
public type and the optional DNS label exactly when some port is exposed and
no delegated subnet is configured. -/
theorem assembleGroup_ipAddress (p : Provider) (pod : Pod) (cs : List AciContainer)
    (cl : List ImageRegistryCredential) (vl : List AciVolume) (ics : List AciInitContainer) :
    (assembleGroup p pod cs cl vl ics).ipAddress =
      if (groupPortsOf cs).length > 0 ∧ p.subnetName = "" then
        some { ports := groupPortsOf cs, ipType := "Public", dnsNameLabel := dnsLabelOf pod }
      else none := by
  simp only [assembleGroup]
  rw [amendVnet_ipAddress]
  split
  · rfl
  · rw [filterWindows_ipAddress]

/-- C8: for every successful create call, the translated group carries a
public IP address exactly when some container of the pod declares at least
one port and the provider has no delegated subnet configured; the IP, when
present, is public, carries every exposed container port re-tagged TCP, and
carries the DNS-name-label annotation as its DNS label whenever that
annotation is present and non-empty. -/
theorem c8_public_ip_iff {p : Provider} {pod : Pod}
    {creds : Except ProviderError (List ImageRegistryCredential)}
    {vols : Except ProviderError (List AciVolume)} {cg : ContainerGroup}
    (h : createPod p pod creds vols = .ok cg) :
    (cg.ipAddress.isSome = true ↔
      ((∃ c ∈ pod.containers, c.ports.getD [] ≠ []) ∧ p.subnetName = "")) ∧
    (∀ ip, cg.ipAddress = some ip →
      ip.ipType = "Public" ∧
      ip.ports = (pod.containers.map (fun c => (c.ports.getD []).map
        (fun q => ({ port := q.containerPort, protocol := "TCP" } : AciPort)))).flatten ∧
      (lookupAnnotD pod dnsNameLabelAnnKey ≠ "" →
        ip.dnsNameLabel = some (lookupAnnotD pod dnsNameLabelAnnKey))) := by
  obtain ⟨cs, cl, vl, ics, hcs, _, _, _, hcg⟩ := createPod_ok_inv h
  have hcs2 : mapExcept (getContainer p pod) pod.containers = .ok cs := hcs
  have hforall2 := mapExcept_ok_forall2 hcs2
  have hports : groupPortsOf cs =
      (pod.containers.map (fun c => (c.ports.getD []).map
        (fun q => ({ port := q.containerPort, protocol := "TCP" } : AciPort)))).flatten := by
    unfold groupPortsOf
    have hmapeq := forall2_map_eq hforall2
      (f := fun (ac : AciContainer) =>
        ac.ports.map (fun q => ({ port := q.port, protocol := "TCP" } : AciPort)))
      (g := fun (c : Container) => (c.ports.getD []).map
        (fun q => ({ port := q.containerPort, protocol := "TCP" } : AciPort)))
    rw [hmapeq]
    intro x y hxy
    obtain ⟨res, liv, rdy, _, _, _, hy⟩ := getContainer_ok_inv hxy
    subst hy
    simp [List.map_map, Function.comp]
  have hui : cg.ipAddress =
      if (groupPortsOf cs).length > 0 ∧ p.subnetName = "" then
        some { ports := groupPortsOf cs, ipType := "Public", dnsNameLabel := dnsLabelOf pod }
      else none := by
    rw [hcg, assembleGroup_ipAddress]
  have hlen : (groupPortsOf cs).length > 0 ↔ (∃ c ∈ pod.containers, c.ports.getD [] ≠ []) := by
    rw [gt_iff_lt, hports, List.length_pos]
    constructor
    · intro hne
      by_contra hall
      push_neg at hall
      apply hne
      rw [List.flatten_eq_nil_iff]
      intro l hl
      obtain ⟨c, hcmem, rfl⟩ := List.mem_map.mp hl
      rw [List.map_eq_nil_iff]
      exact hall c hcmem
    · intro ⟨c, hcmem, hcne⟩ hnil
      rw [List.flatten_eq_nil_iff] at hnil
      have := hnil _ (List.mem_map_of_mem _ hcmem)
      rw [List.map_eq_nil_iff] at this
      exact hcne this
  constructor
  · rw [hui]
    by_cases hcond : ((groupPortsOf cs).length > 0 ∧ p.subnetName = "")
    · simp only [if_pos hcond, Option.isSome_some]
      exact iff_of_true trivial ⟨hlen.mp hcond.1, hcond.2⟩
    · simp only [if_neg hcond, Option.isSome_none]
      refine iff_of_false (by simp) ?_
      intro ⟨hex, hsub⟩
      exact hcond ⟨hlen.mpr hex, hsub⟩
  · intro ip hip
    rw [hui] at hip
    by_cases hcond : ((groupPortsOf cs).length > 0 ∧ p.subnetName = "")
    · rw [if_pos hcond] at hip
      cases hip
      refine ⟨rfl, hports, fun hann => ?_⟩
      simp [dnsLabelOf, hann]
    · rw [if_neg hcond] at hip
      cases hip

/-- The container of the C8 witness: it exposes port 80. -/
def c8Container : Container :=
  { sampleContainer with
      ports := some [ { name := "", containerPort := 80, protocol := "TCP" } ] }

/-- The pod of the C8 witness: one exposed port, a DNS-name-label annotation. -/
def c8Pod : Pod :=
  { samplePod with containers := [c8Container],
                   annots := [(dnsNameLabelAnnKey, "mylabel")] }

/-- The group the C8 witness's create call hands to the backend. -/
def c8Group : ContainerGroup :=
  match createPod sampleProvider c8Pod (Except.ok []) (Except.ok []) with
  | .ok cg => cg
  | .error _ =>
    { location := "", restartPolicy := "", osType := "", containers := [],
      initContainers := [], volumes := [], imageRegistryCredentials := [],
      diagnostics := none, ipAddress := none, tags := [], subnetIds := none }

/-- Concrete instantiation of `c8_public_ip_iff`: the pod exposing port 80
with no delegated subnet gets a public IP, whose DNS label is the
annotation value. -/
theorem c8_witness :
    createPod sampleProvider c8Pod (Except.ok []) (Except.ok []) = .ok c8Group ∧
    c8Group.ipAddress.isSome = true := by
  have h : createPod sampleProvider c8Pod (Except.ok []) (Except.ok []) = .ok c8Group := by rfl
  refine ⟨h, ?_⟩
  exact (c8_public_ip_iff h).1.mpr ⟨⟨c8Container, by decide, by decide⟩, rfl⟩

/-! ### Claim C10 -/

/-- C10: the `GetPods` node filter compares the `NodeName` tag by string
*pointer*, not by value: every listed group whose tag pointer differs from
the address of the provider's `nodeName` field is skipped — even when the
pointed-to string value equals the node name, as is the case for every
group deserialized from a backend list response — so no such group appears
in the returned pod list nor in the active-identifier set built from it. -/
theorem c10_getpods_pointer_filter
    (nodeName : String) (nodeNameAddr : Nat) (heapVal : Nat → String)
    (convert : ListedGroup → Option PodIdentifier) (cgs : List ListedGroup)
    (hptr : ∀ g ∈ cgs, g.nodeNameTagAddr ≠ some nodeNameAddr)
    (_hself : heapVal nodeNameAddr = nodeName)
    (_hval : ∀ g ∈ cgs, ∀ a, g.nodeNameTagAddr = some a → heapVal a = nodeName) :
    getPods nodeNameAddr convert cgs = [] ∧ listActivePods nodeNameAddr convert cgs = [] := by
  have h1 : getPods nodeNameAddr convert cgs = [] := by
    unfold getPods
    rw [List.filterMap_eq_nil_iff]
    intro g hg
    rw [if_neg (hptr g hg)]
  refine ⟨h1, ?_⟩
  unfold listActivePods
  rw [h1]
  rfl

/-- The listed group of the C10 witness: its `NodeName` tag lives at
address 7, while the provider's `nodeName` field lives at address 3; both
addresses hold the same string value. -/
def c10Group : ListedGroup := { nodeNameTagAddr := some 7, ns := "default", name := "p" }

/-- Concrete instantiation of `c10_getpods_pointer_filter`: the group with a
value-equal but pointer-distinct tag is skipped, yielding empty pod and
identifier lists. -/
theorem c10_witness :
    getPods 3 (fun g => some { ns := g.ns, name := g.name }) [c10Group] = [] ∧
    listActivePods 3 (fun g => some { ns := g.ns, name := g.name }) [c10Group] = [] :=
  c10_getpods_pointer_filter "vk-node" 3 (fun _ => "vk-node")
    (fun g => some { ns := g.ns, name := g.name }) [c10Group]
    (by decide) rfl (fun _ _ _ _ => rfl)

end AzureACI
